import Mathlib

/-!
Shallow embedding of `tests/helpers/automation_validation.py`.

Python values flowing through the validator are modelled by `PyVal`
(mappings are association lists with string keys, matching the
configuration documents the module handles).  Operations that can raise
a Python exception are modelled in `Except String`, the error string
naming the exception class.  Pure Python helpers become pure Lean
functions.
-/

set_option maxHeartbeats 1000000

deriving instance DecidableEq for Except

/-- A Python value as handled by the validation module: `None`, `bool`,
`int`, `float` (modelled as a rational), `str`, `list`, or a `dict`
with string keys. -/
inductive PyVal where
  | none : PyVal
  | bool : Bool → PyVal
  | int : Int → PyVal
  | float : Rat → PyVal
  | str : String → PyVal
  | list : List PyVal → PyVal
  | dict : List (String × PyVal) → PyVal

/-- `type(v).__name__` for the modelled types. -/
def typeName : PyVal → String
  | .none => "NoneType"
  | .bool _ => "bool"
  | .int _ => "int"
  | .float _ => "float"
  | .str _ => "str"
  | .list _ => "list"
  | .dict _ => "dict"

/-- `isinstance(v, str)`. -/
def isStr : PyVal → Bool
  | .str _ => true
  | _ => false

/-- The underlying string of a `str` value (only used behind `isStr`). -/
def strVal : PyVal → String
  | .str s => s
  | _ => ""

/-- `v == s` for a string literal `s`: in Python only another `str`
compares equal to a string. -/
def isStrEq (v : PyVal) (s : String) : Bool :=
  match v with
  | .str t => t == s
  | _ => false

/-- Python hashability: every scalar is hashable, `list` and `dict`
are not. -/
def hashable : PyVal → Bool
  | .list _ => false
  | .dict _ => false
  | _ => true

/-- Key membership in a dict (`k in d`). -/
def hasKey (es : List (String × PyVal)) (k : String) : Bool :=
  es.any (fun e => e.1 == k)

/-- Dict subscription `d[k]`, last binding winning as in a Python dict
built by repeated insertion. -/
def lookup : List (String × PyVal) → String → Option PyVal
  | [], _ => Option.none
  | (k', v) :: rest, k =>
    match lookup rest k with
    | some w => some w
    | Option.none => if k' == k then some v else Option.none

/-- Python `repr`, as used when a non-`str` value is interpolated into
an f-string inside a container. -/
def pyRepr : PyVal → String
  | .none => "None"
  | .bool b => if b then "True" else "False"
  | .int n => toString n
  | .float q => toString q
  | .str s => "'" ++ s ++ "'"
  | .list xs => "[" ++ String.intercalate ", " (xs.attach.map (fun x => pyRepr x.1)) ++ "]"
  | .dict es =>
      "\x7b" ++
        String.intercalate ", "
          (es.attach.map (fun e => "'" ++ e.1.1 ++ "': " ++ pyRepr e.1.2)) ++
      "\x7d"
termination_by v => sizeOf v
decreasing_by
  · have h := List.sizeOf_lt_of_mem x.2
    simp only [PyVal.list.sizeOf_spec]
    omega
  · have h := List.sizeOf_lt_of_mem e.2
    have h2 : sizeOf e.1.2 < sizeOf e.1 := by
      cases e.1 with
      | mk a b => simp
    simp only [PyVal.dict.sizeOf_spec]
    omega

/-- Python `str(v)` as used in f-string interpolation. -/
def pyStr : PyVal → String
  | .str s => s
  | .none => "None"
  | .bool b => if b then "True" else "False"
  | .int n => toString n
  | .float q => toString q
  | .list xs => pyRepr (.list xs)
  | .dict es => pyRepr (.dict es)

/-- `k in v` for a string needle: key membership for dicts, element
equality for lists, substring search for strings, `TypeError` for
non-container scalars. -/
def keyIn (k : String) (v : PyVal) : Except String Bool :=
  match v with
  | .dict es => .ok (hasKey es k)
  | .list xs => .ok (xs.any (fun x => isStrEq x k))
  | .str s => .ok (isInfixB k.toList s.toList)
  | _ => .error "TypeError"
where
  isPrefixB : List Char → List Char → Bool
    | [], _ => true
    | _ :: _, [] => false
    | a :: as, b :: bs => a == b && isPrefixB as bs
  isInfixB (p : List Char) : List Char → Bool
    | [] => p.isEmpty
    | l@(_ :: rest) => isPrefixB p l || isInfixB p rest

/-- Subscription `v[k]` with a string key: dict lookup (raising
`KeyError` when absent), `TypeError` on every other type. -/
def getItem (v : PyVal) (k : String) : Except String PyVal :=
  match v with
  | .dict es =>
    match lookup es k with
    | some x => .ok x
    | Option.none => .error "KeyError"
  | _ => .error "TypeError"

/-- `v in S` for a set `S` of strings: raises `TypeError` on an
unhashable value, otherwise only a `str` can be a member. -/
def inStrSet (v : PyVal) (s : List String) : Except String Bool :=
  if hashable v then
    .ok (match v with
         | .str t => s.contains t
         | _ => false)
  else .error "TypeError"

/-! ## Taxonomy constants (module-level sets, kept in source order) -/

def VALID_TRIGGER_PLATFORMS : List String :=
  ["event", "homeassistant", "mqtt", "numeric_state", "state",
   "sun", "tag", "template", "time", "time_pattern", "webhook", "zone"]

def VALID_CONDITION_TYPES : List String :=
  ["and", "or", "not", "device", "numeric_state", "state",
   "sun", "template", "time", "trigger", "zone"]

def VALID_ACTION_TYPES : List String :=
  ["service", "delay", "wait_template", "wait_for_trigger",
   "repeat", "choose", "parallel", "if", "stop", "variables", "event"]

def VALID_MODES : List String := ["single", "restart", "queued", "parallel"]

/-! ## `_is_valid_time_string` and Python `int()` on strings -/

/-- Python whitespace as stripped by `int()`. -/
def isPyWs (c : Char) : Bool :=
  c == ' ' || c == '\t' || c == '\n' || c == '\r' || c == '\x0b' || c == '\x0c'

/-- Strip leading and trailing whitespace from a character list. -/
def trimWs (cs : List Char) : List Char :=
  ((cs.dropWhile isPyWs).reverse.dropWhile isPyWs).reverse

/-- `s.split(sep)` for a single-character separator. -/
def splitOnChar (sep : Char) (s : String) : List String :=
  go s.toList []
where
  go : List Char → List Char → List String
    | [], acc => [String.mk acc.reverse]
    | x :: rest, acc =>
      if x = sep then String.mk acc.reverse :: go rest []
      else go rest (x :: acc)

/-- The tail of a Python integer literal body: digits with single
underscores allowed between digits. -/
def digitsTail : List Char → Bool
  | [] => true
  | c :: rest =>
    if c = '_' then
      match rest with
      | [] => false
      | d :: rest' => d.isDigit && digitsTail rest'
    else c.isDigit && digitsTail rest

/-- A nonempty run of digits (underscore separators allowed after the
first digit), the body of a Python `int()` literal. -/
def intBody : List Char → Bool
  | [] => false
  | c :: rest => c.isDigit && digitsTail rest

/-- Numeric value of a digit/underscore run. -/
def digitsToNat (cs : List Char) : Nat :=
  (cs.filter (fun c => c ≠ '_')).foldl (fun acc c => 10 * acc + (c.toNat - 48)) 0

/-- Python `int(s)` for a decimal string: surrounding whitespace is
stripped, an optional sign precedes a nonempty digit run; `none` models
the `ValueError` raised otherwise. -/
def pyIntOfString (s : String) : Option Int :=
  let cs := trimWs s.toList
  match cs with
  | '+' :: rest => if intBody rest then some (digitsToNat rest) else Option.none
  | '-' :: rest => if intBody rest then some (-(digitsToNat rest : Int)) else Option.none
  | _ => if intBody cs then some (digitsToNat cs) else Option.none

/-- `_is_valid_time_string`: split on `':'`, require 2 or 3 components,
parse each with `int()` (the `try`/`except ValueError` returning false),
then range-check hours/minutes/seconds. -/
def _is_valid_time_string (v : PyVal) : Bool :=
  match v with
  | .str time_str =>
    let parts := splitOnChar ':' time_str
    if parts.length != 2 && parts.length != 3 then false
    else
      match pyIntOfString (parts.getD 0 "") with
      | Option.none => false
      | some hours =>
        match pyIntOfString (parts.getD 1 "") with
        | Option.none => false
        | some minutes =>
          match (if parts.length = 3 then pyIntOfString (parts.getD 2 "") else some 0) with
          | Option.none => false
          | some seconds =>
            if ¬ (0 ≤ hours ∧ hours ≤ 23) then false
            else if ¬ (0 ≤ minutes ∧ minutes ≤ 59) then false
            else if ¬ (0 ≤ seconds ∧ seconds ≤ 59) then false
            else true
  | _ => false

/-! ## `validate_triggers` -/

/-- Platform-specific required-field checks for one trigger (the
`platform` value is already known to be a member of
`VALID_TRIGGER_PLATFORMS`). -/
def platformChecks (i : Nat) (platform : PyVal) (es : List (String × PyVal)) : List String :=
  if isStrEq platform "time" then
    match lookup es "at" with
    | Option.none => ["Time trigger " ++ toString i ++ " missing required 'at' field"]
    | some at_time =>
      if ¬ _is_valid_time_string at_time then
        ["Time trigger " ++ toString i ++ " has invalid time format: " ++ pyStr at_time]
      else []
  else if isStrEq platform "state" then
    if ¬ hasKey es "entity_id" then
      ["State trigger " ++ toString i ++ " missing required 'entity_id' field"]
    else []
  else if isStrEq platform "numeric_state" then
    (if ¬ hasKey es "entity_id" then
      ["Numeric state trigger " ++ toString i ++ " missing required 'entity_id' field"]
     else []) ++
    (if ¬ hasKey es "above" ∧ ¬ hasKey es "below" then
      ["Numeric state trigger " ++ toString i ++ " must have 'above' or 'below'"]
     else [])
  else if isStrEq platform "sun" then
    match lookup es "event" with
    | Option.none => ["Sun trigger " ++ toString i ++ " missing required 'event' field"]
    | some ev =>
      if ¬ (isStrEq ev "sunrise" ∨ isStrEq ev "sunset") then
        ["Sun trigger " ++ toString i ++ " event must be 'sunrise' or 'sunset'"]
      else []
  else []

/-- Validation of the `i`-th trigger entry.  The membership test of the
`platform` value in the platform set raises `TypeError` on an
unhashable value. -/
def triggerItem (i : Nat) (t : PyVal) : Except String (List String) :=
  match t with
  | .dict es =>
    match lookup es "platform" with
    | Option.none => .ok ["Trigger " ++ toString i ++ " missing required 'platform' field"]
    | some platform =>
      match inStrSet platform VALID_TRIGGER_PLATFORMS with
      | .error e => .error e
      | .ok inSet =>
        if ¬ inSet then
          .ok ["Trigger " ++ toString i ++ " has invalid platform '" ++ pyStr platform ++ "'"]
        else .ok (platformChecks i platform es)
  | v => .ok ["Trigger " ++ toString i ++ " must be a dict, got " ++ typeName v]

/-- The `for i, trigger in enumerate(triggers)` loop. -/
def triggersLoop (i : Nat) : List PyVal → Except String (List String)
  | [] => .ok []
  | t :: rest =>
    match triggerItem i t with
    | .error e => .error e
    | .ok errs =>
      match triggersLoop (i + 1) rest with
      | .error e => .error e
      | .ok more => .ok (errs ++ more)

/-- `validate_triggers`. -/
def validate_triggers (triggers : PyVal) : Except String (List String) :=
  match triggers with
  | .list ts => triggersLoop 0 ts
  | v => .ok ["Triggers must be a list, got " ++ typeName v]

/-! ## `validate_conditions` -/

/-- Type-specific checks for one condition (its `condition` value is
already known valid). -/
def conditionChecks (i : Nat) (ct : PyVal) (es : List (String × PyVal)) : List String :=
  if isStrEq ct "state" then
    (if ¬ hasKey es "entity_id" then
      ["State condition " ++ toString i ++ " missing required 'entity_id' field"]
     else []) ++
    (if ¬ hasKey es "state" then
      ["State condition " ++ toString i ++ " missing required 'state' field"]
     else [])
  else if isStrEq ct "numeric_state" then
    (if ¬ hasKey es "entity_id" then
      ["Numeric state condition " ++ toString i ++ " missing required 'entity_id' field"]
     else []) ++
    (if ¬ hasKey es "above" ∧ ¬ hasKey es "below" then
      ["Numeric state condition " ++ toString i ++ " must have 'above' or 'below'"]
     else [])
  else if isStrEq ct "time" then
    (if ¬ hasKey es "after" ∧ ¬ hasKey es "before" then
      ["Time condition " ++ toString i ++ " must have 'after' or 'before'"]
     else []) ++
    (match lookup es "after" with
     | some a =>
       if ¬ _is_valid_time_string a then
         ["Time condition " ++ toString i ++ " has invalid 'after' time format"]
       else []
     | Option.none => []) ++
    (match lookup es "before" with
     | some b =>
       if ¬ _is_valid_time_string b then
         ["Time condition " ++ toString i ++ " has invalid 'before' time format"]
       else []
     | Option.none => [])
  else []

/-- Validation of the `i`-th condition entry. -/
def conditionItem (i : Nat) (c : PyVal) : Except String (List String) :=
  match c with
  | .dict es =>
    match lookup es "condition" with
    | Option.none => .ok ["Condition " ++ toString i ++ " missing required 'condition' field"]
    | some ct =>
      match inStrSet ct VALID_CONDITION_TYPES with
      | .error e => .error e
      | .ok inSet =>
        if ¬ inSet then
          .ok ["Condition " ++ toString i ++ " has invalid type '" ++ pyStr ct ++ "'"]
        else .ok (conditionChecks i ct es)
  | v => .ok ["Condition " ++ toString i ++ " must be a dict, got " ++ typeName v]

/-- The `for i, condition in enumerate(conditions)` loop. -/
def conditionsLoop (i : Nat) : List PyVal → Except String (List String)
  | [] => .ok []
  | c :: rest =>
    match conditionItem i c with
    | .error e => .error e
    | .ok errs =>
      match conditionsLoop (i + 1) rest with
      | .error e => .error e
      | .ok more => .ok (errs ++ more)

/-- `validate_conditions`. -/
def validate_conditions (conditions : PyVal) : Except String (List String) :=
  match conditions with
  | .list cs => conditionsLoop 0 cs
  | v => .ok ["Conditions must be a list, got " ++ typeName v]

/-! ## `validate_actions` -/

/-- The `elif`-chain classifying an action by its first present marker
key, in source order. -/
def actionType (es : List (String × PyVal)) : Option String :=
  if hasKey es "service" then some "service"
  else if hasKey es "delay" then some "delay"
  else if hasKey es "wait_template" then some "wait_template"
  else if hasKey es "repeat" then some "repeat"
  else if hasKey es "choose" then some "choose"
  else if hasKey es "if" then some "if"
  else if hasKey es "stop" then some "stop"
  else if hasKey es "variables" then some "variables"
  else if hasKey es "parallel" then some "parallel"
  else if hasKey es "event" then some "event"
  else Option.none

/-- The `service`-action checks: service string format plus the
optional `target` shape. -/
def serviceChecks (i : Nat) (es : List (String × PyVal)) : List String :=
  (match lookup es "service" with
   | some (.str s) =>
     if ¬ s.toList.contains '.' then
       ["Action " ++ toString i ++ " service '" ++ s ++ "' must be in format 'domain.service'"]
     else
       let domain := s.toList.takeWhile (fun c => c ≠ '.')
       let service_name := s.toList.drop (domain.length + 1)
       if domain.isEmpty ∨ service_name.isEmpty then
         ["Action " ++ toString i ++ " has invalid service format: '" ++ s ++ "'"]
       else []
   | some _ => ["Action " ++ toString i ++ " service must be a string"]
   | Option.none => []) ++
  (match lookup es "target" with
   | some (.dict tes) =>
     if ¬ hasKey tes "entity_id" ∧ ¬ hasKey tes "device_id" ∧ ¬ hasKey tes "area_id" then
       ["Action " ++ toString i ++ " target must have entity_id, device_id, or area_id"]
     else []
   | some _ => ["Action " ++ toString i ++ " target must be a dict"]
   | Option.none => [])

/-- The `delay`-action checks. -/
def delayChecks (i : Nat) (es : List (String × PyVal)) : List String :=
  match lookup es "delay" with
  | some (.dict des) =>
    if ¬ (hasKey des "hours" ∨ hasKey des "minutes" ∨ hasKey des "seconds" ∨
          hasKey des "milliseconds") then
      ["Action " ++ toString i ++ " delay must have time units"]
    else []
  | some (.str _) => []
  | some _ => ["Action " ++ toString i ++ " delay must be a dict or string"]
  | Option.none => []

/-- Size bound for recursion through a dict lookup. -/
theorem lookup_sizeOf_lt {es : List (String × PyVal)} {k : String} {v : PyVal}
    (h : lookup es k = some v) : sizeOf v < sizeOf es := by
  induction es with
  | nil => simp [lookup] at h
  | cons e rest ih =>
    cases e with
    | mk k' w =>
      rw [lookup] at h
      cases hr : lookup rest k with
      | some u =>
        rw [hr] at h
        cases h
        have := ih hr
        simp
        omega
      | none =>
        rw [hr] at h
        by_cases hk : (k' == k) = true
        · simp [hk] at h
          subst h
          simp
          omega
        · simp [hk] at h

mutual

/-- `validate_actions`. -/
def validate_actions (actions : PyVal) : List String :=
  match actions with
  | .list [] => ["Automation must have at least one action"]
  | .list (a :: rest) => actionsLoop 0 (a :: rest)
  | v => ["Actions must be a list, got " ++ typeName v]
termination_by sizeOf actions
decreasing_by
  simp only [PyVal.list.sizeOf_spec]
  omega

/-- The `for i, action in enumerate(actions)` loop. -/
def actionsLoop (i : Nat) (as : List PyVal) : List String :=
  match as with
  | [] => []
  | a :: rest => processAction i a ++ actionsLoop (i + 1) rest
termination_by sizeOf as
decreasing_by
  · simp only [List.cons.sizeOf_spec]
    omega
  · simp only [List.cons.sizeOf_spec]
    omega

/-- Validation of the `i`-th action entry: classification followed by
the type-specific checks; the `parallel` branch recurses into
`validate_actions` and index-tags each returned error. -/
def processAction (i : Nat) (a : PyVal) : List String :=
  match a with
  | .dict es =>
    match actionType es with
    | some t =>
      if t = "service" then serviceChecks i es
      else if t = "delay" then delayChecks i es
      else if t = "parallel" then
        match h : lookup es "parallel" with
        | some p =>
          match p with
          | .list ps =>
            (validate_actions (.list ps)).map
              (fun e => "Action " ++ toString i ++ " parallel: " ++ e)
          | _ => ["Action " ++ toString i ++ " parallel must be a list"]
        | Option.none => []
      else []
    | Option.none => ["Action " ++ toString i ++ " has no recognized action type"]
  | v => ["Action " ++ toString i ++ " must be a dict, got " ++ typeName v]
termination_by sizeOf a
decreasing_by
  have := lookup_sizeOf_lt h
  simp only [PyVal.dict.sizeOf_spec, PyVal.list.sizeOf_spec]
  simp only [PyVal.list.sizeOf_spec] at this
  omega

end

/-! ## `validate_automation_config`

The body of the Python function is a sequence of independent blocks,
each appending to `errors`; each block is embedded as its own
`check*` function returning the errors it contributes (or the
exception it raises), and the main function concatenates them in
source order.  The `k in config` membership tests raise exactly when
`config` is a non-container, which depends only on `config` itself, so
evaluation order among the membership tests does not affect the
result. -/

def checkRequiredFields (config : PyVal) : Except String (List String) := do
  let hasTrigger ← keyIn "trigger" config
  if hasTrigger then pure []
  else do
    let hasId ← keyIn "id" config
    if hasId then pure []
    else pure ["Automation must have either 'trigger' or 'id' field"]

def checkIdField (config : PyVal) : Except String (List String) := do
  let hasId ← keyIn "id" config
  if hasId then do
    let idv ← getItem config "id"
    if ¬ isStr idv then pure ["ID must be a string, got " ++ typeName idv]
    else if strVal idv = "" then pure ["ID cannot be empty"]
    else pure []
  else pure []

def checkAliasField (config : PyVal) : Except String (List String) := do
  let hasAlias ← keyIn "alias" config
  if hasAlias then do
    let av ← getItem config "alias"
    if ¬ isStr av then pure ["Alias must be a string, got " ++ typeName av]
    else pure []
  else pure []

def checkModeField (config : PyVal) : Except String (List String) := do
  let hasMode ← keyIn "mode" config
  if hasMode then do
    let mv ← getItem config "mode"
    let inSet ← inStrSet mv VALID_MODES
    if inSet then pure []
    else pure ["Invalid mode '" ++ pyStr mv ++ "'. Must be one of: " ++
               String.intercalate ", " VALID_MODES]
  else pure []

def checkTriggerField (config : PyVal) : Except String (List String) := do
  let hasTrigger ← keyIn "trigger" config
  if hasTrigger then do
    let tv ← getItem config "trigger"
    validate_triggers tv
  else pure []

def checkConditionField (config : PyVal) : Except String (List String) := do
  let hasCondition ← keyIn "condition" config
  if hasCondition then do
    let cv ← getItem config "condition"
    validate_conditions cv
  else pure []

def checkActionField (config : PyVal) : Except String (List String) := do
  let hasAction ← keyIn "action" config
  if hasAction then do
    let av ← getItem config "action"
    pure (validate_actions av)
  else pure ["Automation must have 'action' field"]

/-- `validate_automation_config`. -/
def validate_automation_config (config : PyVal) : Except String (Bool × List String) := do
  let e1 ← checkRequiredFields config
  let e2 ← checkIdField config
  let e3 ← checkAliasField config
  let e4 ← checkModeField config
  let e5 ← checkTriggerField config
  let e6 ← checkConditionField config
  let e7 ← checkActionField config
  let errors := e1 ++ e2 ++ e3 ++ e4 ++ e5 ++ e6 ++ e7
  pure (errors.isEmpty, errors)

/-! ## `validate_service_data` -/

/-- `isinstance(v, (int, float))`; Python's `bool` is a subclass of
`int`, so it counts as numeric. -/
def isNumber : PyVal → Bool
  | .int _ => true
  | .float _ => true
  | .bool _ => true
  | _ => false

/-- The numeric value used in comparisons (`True == 1`). -/
def pyNum : PyVal → Rat
  | .int n => (n : Rat)
  | .float q => q
  | .bool b => if b then 1 else 0
  | _ => 0

/-- `validate_service_data`. -/
def validate_service_data (domain service : String) (data : List (String × PyVal)) :
    Bool × List String :=
  let errors :=
    if domain = "light" then
      if service = "turn_on" then
        (match lookup data "brightness" with
         | some b =>
           if ¬ isNumber b ∨ ¬ (0 ≤ pyNum b ∧ pyNum b ≤ 255) then
             ["brightness must be 0-255, got " ++ pyStr b]
           else []
         | Option.none => []) ++
        (match lookup data "brightness_pct" with
         | some b =>
           if ¬ isNumber b ∨ ¬ (0 ≤ pyNum b ∧ pyNum b ≤ 100) then
             ["brightness_pct must be 0-100, got " ++ pyStr b]
           else []
         | Option.none => []) ++
        (match lookup data "color_temp" with
         | some c =>
           if ¬ isNumber c ∨ pyNum c < 0 then
             ["color_temp must be positive, got " ++ pyStr c]
           else []
         | Option.none => []) ++
        (match lookup data "transition" with
         | some t =>
           if ¬ isNumber t ∨ pyNum t < 0 then
             ["transition must be non-negative, got " ++ pyStr t]
           else []
         | Option.none => [])
      else []
    else if domain = "climate" then
      if service = "set_temperature" then
        match lookup data "temperature" with
        | Option.none => ["climate.set_temperature requires 'temperature' field"]
        | some t =>
          if ¬ isNumber t ∨ ¬ (-50 ≤ pyNum t ∧ pyNum t ≤ 50) then
            ["temperature seems unrealistic: " ++ pyStr t]
          else []
      else []
    else if domain = "notify" then
      if ¬ hasKey data "message" then ["notify services require 'message' field"] else []
    else []
  (errors.isEmpty, errors)

/-! ## `get_automation_summary` -/

/-- `len(v)`: defined for the container types (and strings), a
`TypeError` otherwise. -/
def pyLen (v : PyVal) : Except String Nat :=
  match v with
  | .list xs => .ok xs.length
  | .str s => .ok s.length
  | .dict es => .ok es.length
  | _ => .error "TypeError"

/-- Iteration `for x in v`: list elements, string characters, dict
keys; a `TypeError` otherwise. -/
def pyElems (v : PyVal) : Except String (List PyVal) :=
  match v with
  | .list xs => .ok xs
  | .str s => .ok (s.toList.map (fun c => .str (String.mk [c])))
  | .dict es => .ok (es.map (fun e => .str e.1))
  | _ => .error "TypeError"

/-- `v.get(k, d)`: only dicts have `.get`; anything else raises
`AttributeError`. -/
def pyGetDefault (v : PyVal) (k : String) (d : PyVal) : Except String PyVal :=
  match v with
  | .dict es => .ok ((lookup es k).getD d)
  | _ => .error "AttributeError"

/-- Python `==` between the hashable scalars, as used for `set`
membership: numbers (`bool` included) compare by value, strings by
content, `None` only to itself. -/
def scalarEq (a b : PyVal) : Bool :=
  match a, b with
  | .str s, .str t => s == t
  | .none, .none => true
  | .str _, _ => false
  | _, .str _ => false
  | .none, _ => false
  | _, .none => false
  | a, b => isNumber a && isNumber b && pyNum a == pyNum b

/-- Inserting one value into a `set` under construction: raises
`TypeError` on an unhashable value, keeps first-seen order, drops
duplicates. -/
def setInsert (acc : List PyVal) (v : PyVal) : Except String (List PyVal) :=
  if hashable v then
    .ok (if acc.any (fun w => scalarEq w v) then acc else acc ++ [v])
  else .error "TypeError"

/-- The set comprehension over elements `t`, inserting
`t.get(k, 'unknown')` one element at a time. -/
def buildTypeSet (k : String) (acc : List PyVal) : List PyVal → Except String (List PyVal)
  | [] => .ok acc
  | t :: rest => do
    let v ← pyGetDefault t k (.str "unknown")
    let acc' ← setInsert acc v
    buildTypeSet k acc' rest

/-- `', '.join(vs)`: every element must be a `str`. -/
def pyJoin (sep : String) (vs : List PyVal) : Except String String :=
  if vs.all isStr then .ok (String.intercalate sep (vs.map strVal))
  else .error "TypeError"

/-- The list comprehension
`[a.get('service', '') for a in actions if 'service' in a]`. -/
def collectServices : List PyVal → Except String (List PyVal)
  | [] => .ok []
  | a :: rest => do
    let has ← keyIn "service" a
    if has then do
      let v ← pyGetDefault a "service" (.str "")
      let vs ← collectServices rest
      pure (v :: vs)
    else collectServices rest

/-- The "basic info" lines of the summary: one `"Label: value"` part per
present scalar field. -/
def summaryScalarPart (label : String) (key : String) (config : PyVal) :
    Except String (List String) := do
  let has ← keyIn key config
  if has then do
    let v ← getItem config key
    pure [label ++ pyStr v]
  else pure []

/-- The `Triggers:`/`Conditions:` line: count plus the set of
sub-field values, `'unknown'` when the sub-field is missing. -/
def summaryGroupPart (label : String) (key subKey : String) (config : PyVal) :
    Except String (List String) := do
  let has ← keyIn key config
  if has then do
    let v ← getItem config key
    let n ← pyLen v
    let elems ← pyElems v
    let types ← buildTypeSet subKey [] elems
    let joined ← pyJoin ", " types
    pure [label ++ toString n ++ " (" ++ joined ++ ")"]
  else pure []

/-- The `Actions:` line: count, plus the collected `service` names when
any action has one. -/
def summaryActionsPart (config : PyVal) : Except String (List String) := do
  let has ← keyIn "action" config
  if has then do
    let av ← getItem config "action"
    let n ← pyLen av
    let elems ← pyElems av
    let services ← collectServices elems
    if services.isEmpty then pure ["Actions: " ++ toString n]
    else do
      let joined ← pyJoin ", " services
      pure ["Actions: " ++ toString n ++ " (services: " ++ joined ++ ")"]
  else pure []

/-- `get_automation_summary`. -/
def get_automation_summary (config : PyVal) : Except String String := do
  let p1 ← summaryScalarPart "ID: " "id" config
  let p2 ← summaryScalarPart "Alias: " "alias" config
  let p3 ← summaryScalarPart "Mode: " "mode" config
  let p4 ← summaryGroupPart "Triggers: " "trigger" "platform" config
  let p5 ← summaryGroupPart "Conditions: " "condition" "condition" config
  let p6 ← summaryActionsPart config
  pure (String.intercalate " | " (p1 ++ p2 ++ p3 ++ p4 ++ p5 ++ p6))

/-! ## Derived predicates and other claim-support definitions -/

/-- Range check for one time component, following the spec's wording:
the component must parse as an integer and lie within the range. -/
def intComponentInRange (p : String) (lo hi : Int) : Bool :=
  match pyIntOfString p with
  | some n => if lo ≤ n ∧ n ≤ hi then true else false
  | Option.none => false

/-- The spec's characterization of a valid time string: exactly 2 or 3
colon-separated integer components, hours in `[0,23]`, minutes in
`[0,59]`, optional seconds in `[0,59]`. -/
def timeStringSpec (s : String) : Bool :=
  match splitOnChar ':' s with
  | [h, m] => intComponentInRange h 0 23 && intComponentInRange m 0 59
  | [h, m, sec] =>
    intComponentInRange h 0 23 && intComponentInRange m 0 59 && intComponentInRange sec 0 59
  | _ => false

/-- A non-sequence, non-mapping input value. -/
def isScalar : PyVal → Bool
  | .list _ => false
  | .dict _ => false
  | _ => true

/-- The marker keys in the order the classifier's `elif`-chain tests
them. -/
def markerPriority : List String :=
  ["service", "delay", "wait_template", "repeat", "choose", "if", "stop",
   "variables", "parallel", "event"]

/-- The depth-`n` nesting of a malformed `service` action (`"turnon"`,
no dot) under singleton `parallel` actions. -/
def nestedParallel : Nat → PyVal
  | 0 => .list [.dict [("service", .str "turnon")]]
  | n + 1 => .list [.dict [("parallel", nestedParallel n)]]

/-- `n` copies of the per-level provenance tag the validator prepends
to a nested error. -/
def parallelTags : Nat → String
  | 0 => ""
  | n + 1 => "Action 0 parallel: " ++ parallelTags n

/-- Whether an `Except` computation succeeded. -/
def exceptOk {α : Type} : Except String α → Bool
  | .ok _ => true
  | .error _ => false

/-- A trigger entry that cannot make the platform-set membership test
raise: if it is a mapping carrying a `platform` key, that value is
hashable. -/
def triggerItemSafe (t : PyVal) : Bool :=
  match t with
  | .dict es =>
    match lookup es "platform" with
    | some p => hashable p
    | Option.none => true
  | _ => true

/-- A `trigger` field value on which `validate_triggers` cannot raise. -/
def triggersFieldSafe (v : PyVal) : Bool :=
  match v with
  | .list ts => ts.all triggerItemSafe
  | _ => true

/-- A condition entry that cannot make the type-set membership test
raise. -/
def conditionItemSafe (c : PyVal) : Bool :=
  match c with
  | .dict es =>
    match lookup es "condition" with
    | some ct => hashable ct
    | Option.none => true
  | _ => true

/-- A `condition` field value on which `validate_conditions` cannot
raise. -/
def conditionsFieldSafe (v : PyVal) : Bool :=
  match v with
  | .list cs => cs.all conditionItemSafe
  | _ => true

/-- The inputs on which no set-membership test inside
`validate_automation_config` can raise: a mapping whose `mode` value
(when present) is hashable, and whose trigger-platform / condition-type
values (where the validators reach them) are hashable. -/
def configSafe (config : PyVal) : Bool :=
  match config with
  | .dict es =>
    (match lookup es "mode" with | some m => hashable m | Option.none => true) &&
    (match lookup es "trigger" with | some t => triggersFieldSafe t | Option.none => true) &&
    (match lookup es "condition" with | some c => conditionsFieldSafe c | Option.none => true)
  | _ => false

/-- An element the summary loops can process: a mapping whose `k`
sub-field, when present, is a string (so it can be joined). -/
def summaryElemSafe (k : String) (t : PyVal) : Bool :=
  match t with
  | .dict es =>
    match lookup es k with
    | some v => isStr v
    | Option.none => true
  | _ => false

/-- A field value the summary can process: a list of safe elements. -/
def summaryFieldSafe (k : String) (v : PyVal) : Bool :=
  match v with
  | .list xs => xs.all (summaryElemSafe k)
  | _ => false

/-- The mappings on which `get_automation_summary` cannot raise:
`trigger`, `condition` and `action` values, when present, are lists of
mappings whose `platform`/`condition`/`service` sub-fields, when
present, are strings. -/
def summarySafe (config : PyVal) : Bool :=
  match config with
  | .dict es =>
    (match lookup es "trigger" with
     | some v => summaryFieldSafe "platform" v
     | Option.none => true) &&
    (match lookup es "condition" with
     | some v => summaryFieldSafe "condition" v
     | Option.none => true) &&
    (match lookup es "action" with
     | some v => summaryFieldSafe "service" v
     | Option.none => true)
  | _ => false

/-! # Claim theorems -/

/-! ## C5: the time-string validator -/

/-- C5: `is_valid_time_string` returns true exactly for strings of 2 or
3 colon-separated integer components with hours in [0,23], minutes in
[0,59] and optional seconds in [0,59]; every non-string input yields
false; and the spec's five examples evaluate as stated. -/
theorem is_valid_time_string_correct :
    (∀ s, _is_valid_time_string (.str s) = timeStringSpec s) ∧
    _is_valid_time_string .none = false ∧
    (∀ b, _is_valid_time_string (.bool b) = false) ∧
    (∀ n, _is_valid_time_string (.int n) = false) ∧
    (∀ q, _is_valid_time_string (.float q) = false) ∧
    (∀ xs, _is_valid_time_string (.list xs) = false) ∧
    (∀ es, _is_valid_time_string (.dict es) = false) ∧
    _is_valid_time_string (.str "23:59:59") = true ∧
    _is_valid_time_string (.str "24:00") = false ∧
    _is_valid_time_string (.str "10:60") = false ∧
    _is_valid_time_string (.str "abc") = false ∧
    _is_valid_time_string (.int 1030) = false := by
  refine ⟨?_, rfl, fun _ => rfl, fun _ => rfl, fun _ => rfl, fun _ => rfl, fun _ => rfl,
    by decide, by decide, by decide, by decide, by decide⟩
  intro s
  simp only [_is_valid_time_string, timeStringSpec]
  rcases h : splitOnChar ':' s with _ | ⟨a, _ | ⟨b, _ | ⟨c, _ | d⟩⟩⟩
  · simp
  · simp
  · cases ha : pyIntOfString a <;> cases hb : pyIntOfString b <;>
      simp [intComponentInRange, ha, hb, ← decide_not, ← Bool.decide_and, decide_eq_decide] <;>
      omega
  · cases ha : pyIntOfString a <;> cases hb : pyIntOfString b <;> cases hc : pyIntOfString c <;>
      simp [intComponentInRange, ha, hb, hc, ← decide_not, ← Bool.decide_and, decide_eq_decide] <;>
      omega
  · simp

/-! ## Bridging lemmas between `hasKey` and `lookup` -/

theorem lookup_isSome_eq_hasKey (es : List (String × PyVal)) (k : String) :
    (lookup es k).isSome = hasKey es k := by
  induction es with
  | nil => rfl
  | cons e rest ih =>
    cases e with
    | mk k' v =>
      simp only [lookup, hasKey, List.any_cons] at *
      cases hr : lookup rest k with
      | some w =>
        rw [hr] at ih
        simp [← ih]
      | none =>
        rw [hr] at ih
        simp only [Option.isSome_none] at ih
        by_cases hk : (k' == k) = true
        · simp [hk]
        · simp only [Bool.not_eq_true] at hk
          simp [hk, ← ih]

theorem lookup_eq_none_of_not_hasKey {es : List (String × PyVal)} {k : String}
    (h : hasKey es k = false) : lookup es k = Option.none := by
  have hs := lookup_isSome_eq_hasKey es k
  rw [h] at hs
  cases hl : lookup es k with
  | some w => rw [hl] at hs; simp at hs
  | none => rfl

theorem lookup_isSome_of_hasKey {es : List (String × PyVal)} {k : String}
    (h : hasKey es k = true) : ∃ v, lookup es k = some v := by
  have hs := lookup_isSome_eq_hasKey es k
  rw [h] at hs
  cases hl : lookup es k with
  | some w => exact ⟨w, rfl⟩
  | none => rw [hl] at hs; simp at hs

/-! ## C6: non-sequence inputs to the three element validators -/

/-- C6: for every non-list, non-dict input, each of the three element
validators returns exactly one error string, and that string names the
input's runtime type. -/
theorem validators_scalar_input (v : PyVal) (h : isScalar v = true) :
    validate_triggers v = .ok ["Triggers must be a list, got " ++ typeName v] ∧
    validate_conditions v = .ok ["Conditions must be a list, got " ++ typeName v] ∧
    validate_actions v = ["Actions must be a list, got " ++ typeName v] := by
  cases v <;>
    simp_all [validate_triggers, validate_conditions, validate_actions, isScalar]

/-- Witness for C6 at the integer input `7`. -/
theorem validators_scalar_input_witness :
    validate_triggers (.int 7) = .ok ["Triggers must be a list, got int"] ∧
    validate_conditions (.int 7) = .ok ["Conditions must be a list, got int"] ∧
    validate_actions (.int 7) = ["Actions must be a list, got int"] :=
  validators_scalar_input (.int 7) rfl

/-! ## C8: `validate_service_data` for `light.turn_on` -/

/-- C8: each of the four `light.turn_on` keys is checked only when
present, against its numeric range, with the spec's two concrete
examples. -/
theorem validate_service_data_light_turn_on :
    validate_service_data "light" "turn_on" [("brightness", .int 300)] =
      (false, ["brightness must be 0-255, got 300"]) ∧
    validate_service_data "light" "turn_on" [("brightness", .int 200)] = (true, []) ∧
    (∀ v, validate_service_data "light" "turn_on" [("brightness", v)] =
      if isNumber v ∧ 0 ≤ pyNum v ∧ pyNum v ≤ 255 then (true, [])
      else (false, ["brightness must be 0-255, got " ++ pyStr v])) ∧
    (∀ v, validate_service_data "light" "turn_on" [("brightness_pct", v)] =
      if isNumber v ∧ 0 ≤ pyNum v ∧ pyNum v ≤ 100 then (true, [])
      else (false, ["brightness_pct must be 0-100, got " ++ pyStr v])) ∧
    (∀ v, validate_service_data "light" "turn_on" [("color_temp", v)] =
      if isNumber v ∧ 0 ≤ pyNum v then (true, [])
      else (false, ["color_temp must be positive, got " ++ pyStr v])) ∧
    (∀ v, validate_service_data "light" "turn_on" [("transition", v)] =
      if isNumber v ∧ 0 ≤ pyNum v then (true, [])
      else (false, ["transition must be non-negative, got " ++ pyStr v])) ∧
    (∀ data, hasKey data "brightness" = false → hasKey data "brightness_pct" = false →
      hasKey data "color_temp" = false → hasKey data "transition" = false →
      validate_service_data "light" "turn_on" data = (true, [])) := by
  refine ⟨by decide, by decide, fun v => ?_, fun v => ?_, fun v => ?_, fun v => ?_,
    fun data h1 h2 h3 h4 => ?_⟩
  · simp only [validate_service_data, lookup]
    norm_num
    split_ifs <;> simp_all <;> first | tauto | linarith
  · simp only [validate_service_data, lookup]
    norm_num
    split_ifs <;> simp_all <;> first | tauto | linarith
  · simp only [validate_service_data, lookup]
    norm_num
    split_ifs <;> simp_all <;> first | tauto | linarith
  · simp only [validate_service_data, lookup]
    norm_num
    split_ifs <;> simp_all <;> first | tauto | linarith
  · simp only [validate_service_data,
      lookup_eq_none_of_not_hasKey h1, lookup_eq_none_of_not_hasKey h2,
      lookup_eq_none_of_not_hasKey h3, lookup_eq_none_of_not_hasKey h4]
    norm_num

/-- Witness for C8 at an empty data mapping. -/
theorem validate_service_data_light_turn_on_witness :
    validate_service_data "light" "turn_on" [] = (true, []) :=
  validate_service_data_light_turn_on.2.2.2.2.2.2 [] rfl rfl rfl rfl

/-! ## C9: `wait_for_trigger` is listed but never recognized -/

/-- C9: `wait_for_trigger` appears in `VALID_ACTION_TYPES`, yet an
action whose only key is `wait_for_trigger` is rejected with the
"no recognized action type" error, for every value of that key. -/
theorem wait_for_trigger_unrecognized :
    VALID_ACTION_TYPES.contains "wait_for_trigger" = true ∧
    (∀ v, validate_actions (.list [.dict [("wait_for_trigger", v)]]) =
      ["Action 0 has no recognized action type"]) := by
  refine ⟨by decide, fun v => ?_⟩
  simp [validate_actions, actionsLoop, processAction, actionType, hasKey]
  rfl

/-! ## C10: the service format check splits on the first dot only -/

/-- C10: whenever the service string has a dot with nonempty text
before its first dot and nonempty text after it, the service-format
check accepts, extra dots in the remainder notwithstanding;
`light.turn_on.extra` is accepted. -/
theorem service_format_first_dot :
    (∀ s, s.toList.contains '.' = true →
      (s.toList.takeWhile (fun c => c ≠ '.')).isEmpty = false →
      (s.toList.drop ((s.toList.takeWhile (fun c => c ≠ '.')).length + 1)).isEmpty = false →
      validate_actions (.list [.dict [("service", .str s)]]) = []) ∧
    validate_actions (.list [.dict [("service", .str "light.turn_on.extra")]]) = [] := by
  constructor
  · intro s h1 h2 h3
    simp_all [validate_actions, actionsLoop, processAction, actionType, serviceChecks,
              hasKey, lookup]
  · simp [validate_actions, actionsLoop, processAction, actionType, serviceChecks,
          hasKey, lookup]

/-- Witness for C10 at the service string `"a.b.c"`. -/
theorem service_format_first_dot_witness :
    validate_actions (.list [.dict [("service", .str "a.b.c")]]) = [] :=
  service_format_first_dot.1 "a.b.c" (by decide) (by decide) (by decide)

/-! ## C4: marker-key priority classification -/

/-- C4: the classification of an action mapping is the first marker key
present in priority order; a mapping with no marker key produces the
"no recognized action type" error for its index; and a second present
marker key is silently ignored (a valid `service` action with an
invalid `delay` value yields no error at all). -/
theorem action_classification_priority :
    (∀ es, actionType es = markerPriority.find? (fun k => hasKey es k)) ∧
    (∀ es, actionType es = Option.none →
      validate_actions (.list [.dict es]) = ["Action 0 has no recognized action type"]) ∧
    validate_actions (.list [.dict [("service", .str "light.turn_on"), ("delay", .int 5)]]) =
      [] := by
  refine ⟨fun es => ?_, fun es h => ?_, ?_⟩
  · simp only [actionType, markerPriority]
    split_ifs with h1 h2 h3 h4 h5 h6 h7 h8 h9 h10 <;> simp [List.find?, *]
  · simp [validate_actions, actionsLoop, processAction, h]
    rfl
  · simp [validate_actions, actionsLoop, processAction, actionType, serviceChecks,
          hasKey, lookup]

/-- Witness for C4 at a mapping whose only key is unrecognized. -/
theorem action_classification_priority_witness :
    validate_actions (.list [.dict [("foo", PyVal.none)]]) =
      ["Action 0 has no recognized action type"] :=
  action_classification_priority.2.1 [("foo", PyVal.none)] rfl

/-! ## C2: nested `parallel` error provenance -/

/-- C2 counterexample: at nesting depth 3 the single resulting error
string does not contain the substring `parallel: parallel: parallel:` —
every tag is preceded by its level's `Action 0 ` index prefix, so the
tags are never adjacent. -/
theorem nested_parallel_depth3_counterexample :
    validate_actions (nestedParallel 3) =
      ["Action 0 parallel: Action 0 parallel: Action 0 parallel: Action 0 service 'turnon' must be in format 'domain.service'"] ∧
    keyIn.isInfixB "parallel: parallel: parallel:".toList
      "Action 0 parallel: Action 0 parallel: Action 0 parallel: Action 0 service 'turnon' must be in format 'domain.service'".toList
      = false := by
  constructor
  · simp [nestedParallel, validate_actions, actionsLoop, processAction, actionType,
          serviceChecks, hasKey, lookup]
    rfl
  · decide

/-- C2 amended: at every nesting depth `n` the malformed-service error
surfaces at the top level as one string carrying `n` `parallel:` tags,
one per level, each preceded by its level's action index — the full tag
chain is `n` copies of `Action 0 parallel: `. -/
theorem nested_parallel_provenance (n : Nat) :
    validate_actions (nestedParallel n) =
      [parallelTags n ++
        "Action 0 service 'turnon' must be in format 'domain.service'"] := by
  induction n with
  | zero =>
    simp [nestedParallel, parallelTags, validate_actions, actionsLoop, processAction,
          actionType, serviceChecks, hasKey, lookup]
    rfl
  | succ n ih =>
    obtain ⟨ps, hps⟩ : ∃ ps, nestedParallel n = PyVal.list ps := by
      cases n <;> exact ⟨_, rfl⟩
    rw [show nestedParallel (n + 1) = .list [.dict [("parallel", nestedParallel n)]] from rfl,
        hps]
    rw [hps] at ih
    simp [validate_actions, actionsLoop, processAction, actionType, hasKey, lookup, ih,
          parallelTags, String.append_assoc]
    rw [← String.append_assoc, ← String.append_assoc]
    congr 1

/-! ## C1: totality of `validate_automation_config` -/

@[simp] theorem exceptOk_ok {α : Type} (a : α) : exceptOk (.ok a) = true := rfl

@[simp] theorem exceptOk_error {α : Type} (e : String) :
    exceptOk (Except.error e : Except String α) = false := rfl

theorem exceptOk_exists {α : Type} {X : Except String α} (h : exceptOk X = true) :
    ∃ l, X = .ok l := by
  cases X with
  | ok a => exact ⟨a, rfl⟩
  | error e => simp at h

theorem exceptOk_ite {α : Type} (c : Prop) [Decidable c] (a b : Except String α) :
    exceptOk (if c then a else b) = if c then exceptOk a else exceptOk b :=
  apply_ite exceptOk c a b

theorem triggerItem_total (i : Nat) (t : PyVal) (h : triggerItemSafe t = true) :
    ∃ l, triggerItem i t = .ok l := by
  apply exceptOk_exists
  cases t with
  | dict es =>
    simp only [triggerItemSafe] at h
    cases hp : lookup es "platform" with
    | none => simp [triggerItem, hp]
    | some p =>
      rw [hp] at h
      simp only [] at h
      simp [triggerItem, hp, inStrSet, h, exceptOk_ite]
  | none => rfl
  | bool b => rfl
  | int n => rfl
  | float q => rfl
  | str s => rfl
  | list xs => rfl

theorem triggersLoop_total (ts : List PyVal) :
    ∀ i, ts.all triggerItemSafe = true → ∃ l, triggersLoop i ts = .ok l := by
  induction ts with
  | nil => exact fun i _ => ⟨[], rfl⟩
  | cons t rest ih =>
    intro i h
    simp only [List.all_cons, Bool.and_eq_true] at h
    obtain ⟨l1, h1⟩ := triggerItem_total i t h.1
    obtain ⟨l2, h2⟩ := ih (i + 1) h.2
    exact ⟨l1 ++ l2, by simp [triggersLoop, h1, h2]⟩

theorem validate_triggers_total (v : PyVal) (h : triggersFieldSafe v = true) :
    ∃ l, validate_triggers v = .ok l := by
  cases v with
  | list ts =>
    simp only [triggersFieldSafe] at h
    exact triggersLoop_total ts 0 h
  | none => exact ⟨_, rfl⟩
  | bool b => exact ⟨_, rfl⟩
  | int n => exact ⟨_, rfl⟩
  | float q => exact ⟨_, rfl⟩
  | str s => exact ⟨_, rfl⟩
  | dict es => exact ⟨_, rfl⟩

theorem conditionItem_total (i : Nat) (c : PyVal) (h : conditionItemSafe c = true) :
    ∃ l, conditionItem i c = .ok l := by
  apply exceptOk_exists
  cases c with
  | dict es =>
    simp only [conditionItemSafe] at h
    cases hp : lookup es "condition" with
    | none => simp [conditionItem, hp]
    | some ct =>
      rw [hp] at h
      simp only [] at h
      simp [conditionItem, hp, inStrSet, h, exceptOk_ite]
  | none => rfl
  | bool b => rfl
  | int n => rfl
  | float q => rfl
  | str s => rfl
  | list xs => rfl

theorem conditionsLoop_total (cs : List PyVal) :
    ∀ i, cs.all conditionItemSafe = true → ∃ l, conditionsLoop i cs = .ok l := by
  induction cs with
  | nil => exact fun i _ => ⟨[], rfl⟩
  | cons c rest ih =>
    intro i h
    simp only [List.all_cons, Bool.and_eq_true] at h
    obtain ⟨l1, h1⟩ := conditionItem_total i c h.1
    obtain ⟨l2, h2⟩ := ih (i + 1) h.2
    exact ⟨l1 ++ l2, by simp [conditionsLoop, h1, h2]⟩

theorem validate_conditions_total (v : PyVal) (h : conditionsFieldSafe v = true) :
    ∃ l, validate_conditions v = .ok l := by
  cases v with
  | list cs =>
    simp only [conditionsFieldSafe] at h
    exact conditionsLoop_total cs 0 h
  | none => exact ⟨_, rfl⟩
  | bool b => exact ⟨_, rfl⟩
  | int n => exact ⟨_, rfl⟩
  | float q => exact ⟨_, rfl⟩
  | str s => exact ⟨_, rfl⟩
  | dict es => exact ⟨_, rfl⟩

theorem checkRequiredFields_dict (es : List (String × PyVal)) :
    ∃ l, checkRequiredFields (.dict es) = .ok l := by
  apply exceptOk_exists
  simp [checkRequiredFields, keyIn, Bind.bind, Except.bind, Pure.pure, Except.pure,
        exceptOk_ite]

theorem checkIdField_dict (es : List (String × PyVal)) :
    ∃ l, checkIdField (.dict es) = .ok l := by
  apply exceptOk_exists
  cases hk : hasKey es "id" with
  | false => simp [checkIdField, keyIn, hk, Bind.bind, Except.bind, Pure.pure, Except.pure]
  | true =>
    obtain ⟨w, hw⟩ := lookup_isSome_of_hasKey hk
    simp [checkIdField, keyIn, getItem, hk, hw, exceptOk_ite, Bind.bind, Except.bind,
          Pure.pure, Except.pure]

theorem checkAliasField_dict (es : List (String × PyVal)) :
    ∃ l, checkAliasField (.dict es) = .ok l := by
  apply exceptOk_exists
  cases hk : hasKey es "alias" with
  | false => simp [checkAliasField, keyIn, hk, Bind.bind, Except.bind, Pure.pure, Except.pure]
  | true =>
    obtain ⟨w, hw⟩ := lookup_isSome_of_hasKey hk
    simp [checkAliasField, keyIn, getItem, hk, hw, exceptOk_ite, Bind.bind, Except.bind,
          Pure.pure, Except.pure]

theorem checkModeField_total (es : List (String × PyVal))
    (h : (match lookup es "mode" with
          | some m => hashable m
          | Option.none => true) = true) :
    ∃ l, checkModeField (.dict es) = .ok l := by
  apply exceptOk_exists
  cases hm : lookup es "mode" with
  | none =>
    have hk : hasKey es "mode" = false := by
      rw [← lookup_isSome_eq_hasKey, hm]; rfl
    simp [checkModeField, keyIn, hk, Bind.bind, Except.bind, Pure.pure, Except.pure]
  | some m =>
    rw [hm] at h
    simp only [] at h
    have hk : hasKey es "mode" = true := by
      rw [← lookup_isSome_eq_hasKey, hm]; rfl
    simp [checkModeField, keyIn, getItem, hk, hm, inStrSet, h, exceptOk_ite, Bind.bind,
          Except.bind, Pure.pure, Except.pure]

theorem checkTriggerField_total (es : List (String × PyVal))
    (h : (match lookup es "trigger" with
          | some t => triggersFieldSafe t
          | Option.none => true) = true) :
    ∃ l, checkTriggerField (.dict es) = .ok l := by
  cases hm : lookup es "trigger" with
  | none =>
    have hk : hasKey es "trigger" = false := by
      rw [← lookup_isSome_eq_hasKey, hm]; rfl
    exact ⟨[], by simp [checkTriggerField, keyIn, hk, Bind.bind, Except.bind, Pure.pure,
      Except.pure]⟩
  | some t =>
    rw [hm] at h
    simp only [] at h
    have hk : hasKey es "trigger" = true := by
      rw [← lookup_isSome_eq_hasKey, hm]; rfl
    obtain ⟨l, hl⟩ := validate_triggers_total t h
    exact ⟨l, by simp [checkTriggerField, keyIn, getItem, hk, hm, hl, Bind.bind,
      Except.bind, Pure.pure, Except.pure]⟩

theorem checkConditionField_total (es : List (String × PyVal))
    (h : (match lookup es "condition" with
          | some c => conditionsFieldSafe c
          | Option.none => true) = true) :
    ∃ l, checkConditionField (.dict es) = .ok l := by
  cases hm : lookup es "condition" with
  | none =>
    have hk : hasKey es "condition" = false := by
      rw [← lookup_isSome_eq_hasKey, hm]; rfl
    exact ⟨[], by simp [checkConditionField, keyIn, hk, Bind.bind, Except.bind, Pure.pure,
      Except.pure]⟩
  | some c =>
    rw [hm] at h
    simp only [] at h
    have hk : hasKey es "condition" = true := by
      rw [← lookup_isSome_eq_hasKey, hm]; rfl
    obtain ⟨l, hl⟩ := validate_conditions_total c h
    exact ⟨l, by simp [checkConditionField, keyIn, getItem, hk, hm, hl, Bind.bind,
      Except.bind, Pure.pure, Except.pure]⟩

theorem checkActionField_dict (es : List (String × PyVal)) :
    ∃ l, checkActionField (.dict es) = .ok l := by
  apply exceptOk_exists
  cases hm : lookup es "action" with
  | none =>
    have hk : hasKey es "action" = false := by
      rw [← lookup_isSome_eq_hasKey, hm]; rfl
    simp [checkActionField, keyIn, hk, Bind.bind, Except.bind, Pure.pure, Except.pure]
  | some av =>
    have hk : hasKey es "action" = true := by
      rw [← lookup_isSome_eq_hasKey, hm]; rfl
    simp [checkActionField, keyIn, getItem, hk, hm, Bind.bind, Except.bind, Pure.pure,
          Except.pure, Functor.map, Except.map]

/-- C1 counterexample: `validate_automation_config` raises a
`TypeError` on the non-mapping input `None`, and on a mapping whose
`mode` value is an unhashable list. -/
theorem validate_automation_config_raises :
    validate_automation_config PyVal.none = .error "TypeError" ∧
    validate_automation_config (.dict [("mode", .list [])]) = .error "TypeError" := by
  constructor <;> decide

/-- C1 amended: `validate_automation_config` returns a
(bool, error-list) result — rather than raising — on every mapping
input whose `mode` value (when present) is hashable and whose
trigger-platform / condition-type values (where the validators reach
them) are hashable; on such inputs type mismatches surface as error
strings, not exceptions.  It raises `TypeError` on `None` and on every
`bool`, `int` and `float` input, where the `in` membership tests are
illegal; list and string inputs are containers, so membership is legal
there and, for instance, the empty list and `"abc"` return an error
list rather than raising. -/
theorem validate_automation_config_total :
    (∀ config, configSafe config = true →
      ∃ p, validate_automation_config config = .ok p) ∧
    (∀ b, validate_automation_config (.bool b) = .error "TypeError") ∧
    (∀ n, validate_automation_config (.int n) = .error "TypeError") ∧
    (∀ q, validate_automation_config (.float q) = .error "TypeError") ∧
    validate_automation_config (.list []) =
      .ok (false, ["Automation must have either 'trigger' or 'id' field",
                   "Automation must have 'action' field"]) ∧
    validate_automation_config (.str "abc") =
      .ok (false, ["Automation must have either 'trigger' or 'id' field",
                   "Automation must have 'action' field"]) := by
  refine ⟨fun config h => ?_, fun b => rfl, fun n => rfl, fun q => rfl, by decide, by decide⟩
  cases config with
  | dict es =>
    simp only [configSafe, Bool.and_eq_true] at h
    obtain ⟨⟨hm, ht⟩, hc⟩ := h
    obtain ⟨l1, h1⟩ := checkRequiredFields_dict es
    obtain ⟨l2, h2⟩ := checkIdField_dict es
    obtain ⟨l3, h3⟩ := checkAliasField_dict es
    obtain ⟨l4, h4⟩ := checkModeField_total es hm
    obtain ⟨l5, h5⟩ := checkTriggerField_total es ht
    obtain ⟨l6, h6⟩ := checkConditionField_total es hc
    obtain ⟨l7, h7⟩ := checkActionField_dict es
    apply exceptOk_exists
    simp [validate_automation_config, h1, h2, h3, h4, h5, h6, h7, Bind.bind,
      Except.bind, Pure.pure, Except.pure]
  | none => simp [configSafe] at h
  | bool b => simp [configSafe] at h
  | int n => simp [configSafe] at h
  | float q => simp [configSafe] at h
  | str s => simp [configSafe] at h
  | list xs => simp [configSafe] at h

/-- Witness for C1's amended theorem at the empty mapping. -/
theorem validate_automation_config_total_witness :
    ∃ p, validate_automation_config (.dict []) = .ok p :=
  validate_automation_config_total.1 (.dict []) rfl

/-! ## C3: totality of `get_automation_summary` -/

theorem summaryScalarPart_dict (label key : String) (es : List (String × PyVal)) :
    ∃ l, summaryScalarPart label key (.dict es) = .ok l := by
  apply exceptOk_exists
  cases hk : hasKey es key with
  | false => simp [summaryScalarPart, keyIn, hk, Bind.bind, Except.bind, Pure.pure,
      Except.pure]
  | true =>
    obtain ⟨w, hw⟩ := lookup_isSome_of_hasKey hk
    simp [summaryScalarPart, keyIn, getItem, hk, hw, Bind.bind, Except.bind, Pure.pure,
          Except.pure]

theorem buildTypeSet_total (k : String) (ts : List PyVal) :
    ∀ acc, ts.all (summaryElemSafe k) = true → acc.all isStr = true →
      ∃ l, buildTypeSet k acc ts = .ok l ∧ l.all isStr = true := by
  induction ts with
  | nil => exact fun acc _ hacc => ⟨acc, rfl, hacc⟩
  | cons t rest ih =>
    intro acc h hacc
    simp only [List.all_cons, Bool.and_eq_true] at h
    obtain ⟨h1, h2⟩ := h
    cases t with
    | dict es =>
      have hv : isStr ((lookup es k).getD (.str "unknown")) = true := by
        simp only [summaryElemSafe] at h1
        cases hl : lookup es k with
        | some v => rw [hl] at h1; simpa using h1
        | none => rfl
      have hh : hashable ((lookup es k).getD (.str "unknown")) = true := by
        cases hgd : (lookup es k).getD (.str "unknown") <;> simp_all [isStr, hashable]
      by_cases hmem :
          acc.any (fun w => scalarEq w ((lookup es k).getD (.str "unknown"))) = true
      · obtain ⟨l, hl1, hl2⟩ := ih acc h2 hacc
        refine ⟨l, ?_, hl2⟩
        simp [buildTypeSet, pyGetDefault, setInsert, hh, hmem, Bind.bind, Except.bind,
              hl1]
      · obtain ⟨l, hl1, hl2⟩ :=
          ih (acc ++ [(lookup es k).getD (.str "unknown")]) h2
            (by simp [List.all_append, hacc, hv])
        refine ⟨l, ?_, hl2⟩
        simp only [Bool.not_eq_true] at hmem
        simp [buildTypeSet, pyGetDefault, setInsert, hh, hmem, Bind.bind, Except.bind,
              hl1]
    | none => simp [summaryElemSafe] at h1
    | bool b => simp [summaryElemSafe] at h1
    | int n => simp [summaryElemSafe] at h1
    | float q => simp [summaryElemSafe] at h1
    | str s => simp [summaryElemSafe] at h1
    | list xs => simp [summaryElemSafe] at h1

theorem collectServices_total (as : List PyVal)
    (h : as.all (summaryElemSafe "service") = true) :
    ∃ l, collectServices as = .ok l ∧ l.all isStr = true := by
  induction as with
  | nil => exact ⟨[], rfl, rfl⟩
  | cons a rest ih =>
    simp only [List.all_cons, Bool.and_eq_true] at h
    obtain ⟨h1, h2⟩ := h
    obtain ⟨l, hl1, hl2⟩ := ih h2
    cases a with
    | dict es =>
      cases hk : hasKey es "service" with
      | false =>
        exact ⟨l, by simp [collectServices, keyIn, hk, hl1, Bind.bind, Except.bind,
          Pure.pure, Except.pure], hl2⟩
      | true =>
        obtain ⟨w, hw⟩ := lookup_isSome_of_hasKey hk
        have hv : isStr w = true := by
          simp only [summaryElemSafe, hw] at h1
          exact h1
        refine ⟨w :: l, ?_, by simp [hv, hl2]⟩
        simp [collectServices, keyIn, pyGetDefault, hk, hw, hl1, Bind.bind, Except.bind,
              Pure.pure, Except.pure]
    | none => simp [summaryElemSafe] at h1
    | bool b => simp [summaryElemSafe] at h1
    | int n => simp [summaryElemSafe] at h1
    | float q => simp [summaryElemSafe] at h1
    | str s => simp [summaryElemSafe] at h1
    | list xs => simp [summaryElemSafe] at h1

theorem summaryGroupPart_total (label key subKey : String) (es : List (String × PyVal))
    (h : (match lookup es key with
          | some v => summaryFieldSafe subKey v
          | Option.none => true) = true) :
    ∃ l, summaryGroupPart label key subKey (.dict es) = .ok l := by
  apply exceptOk_exists
  cases hm : lookup es key with
  | none =>
    have hk : hasKey es key = false := by
      rw [← lookup_isSome_eq_hasKey, hm]; rfl
    simp [summaryGroupPart, keyIn, hk, Bind.bind, Except.bind, Pure.pure, Except.pure]
  | some v =>
    rw [hm] at h
    simp only [] at h
    have hk : hasKey es key = true := by
      rw [← lookup_isSome_eq_hasKey, hm]; rfl
    cases v with
    | list xs =>
      simp only [summaryFieldSafe] at h
      obtain ⟨tys, hty1, hty2⟩ := buildTypeSet_total subKey xs [] h rfl
      simp [summaryGroupPart, keyIn, getItem, hk, hm, pyLen, pyElems, hty1, pyJoin, hty2,
            Bind.bind, Except.bind, Pure.pure, Except.pure]
    | none => simp [summaryFieldSafe] at h
    | bool b => simp [summaryFieldSafe] at h
    | int n => simp [summaryFieldSafe] at h
    | float q => simp [summaryFieldSafe] at h
    | str s => simp [summaryFieldSafe] at h
    | dict des => simp [summaryFieldSafe] at h

theorem summaryActionsPart_total (es : List (String × PyVal))
    (h : (match lookup es "action" with
          | some v => summaryFieldSafe "service" v
          | Option.none => true) = true) :
    ∃ l, summaryActionsPart (.dict es) = .ok l := by
  apply exceptOk_exists
  cases hm : lookup es "action" with
  | none =>
    have hk : hasKey es "action" = false := by
      rw [← lookup_isSome_eq_hasKey, hm]; rfl
    simp [summaryActionsPart, keyIn, hk, Bind.bind, Except.bind, Pure.pure, Except.pure]
  | some v =>
    rw [hm] at h
    simp only [] at h
    have hk : hasKey es "action" = true := by
      rw [← lookup_isSome_eq_hasKey, hm]; rfl
    cases v with
    | list xs =>
      simp only [summaryFieldSafe] at h
      obtain ⟨svcs, hs1, hs2⟩ := collectServices_total xs h
      simp [summaryActionsPart, keyIn, getItem, hk, hm, pyLen, pyElems, hs1, pyJoin, hs2,
            exceptOk_ite, Bind.bind, Except.bind, Pure.pure, Except.pure]
    | none => simp [summaryFieldSafe] at h
    | bool b => simp [summaryFieldSafe] at h
    | int n => simp [summaryFieldSafe] at h
    | float q => simp [summaryFieldSafe] at h
    | str s => simp [summaryFieldSafe] at h
    | dict des => simp [summaryFieldSafe] at h

/-- C3 counterexample: `get_automation_summary` raises a `TypeError` on
a mapping whose `trigger` value is not a sequence, and also on a
trigger list whose element is not a mapping. -/
theorem get_automation_summary_raises :
    get_automation_summary (.dict [("trigger", .int 5)]) = .error "TypeError" ∧
    get_automation_summary (.dict [("trigger", .list [.int 5])]) =
      .error "AttributeError" := by
  constructor <;> decide

/-- C3 amended: `get_automation_summary` returns a best-effort string
for every mapping whose `trigger`/`condition`/`action` values, when
present, are lists of mappings with string (or absent)
`platform`/`condition`/`service` sub-fields; missing sub-fields default
to `'unknown'`.  Raising is not universal on malformed shapes: an empty
dict or empty string as the `trigger` value iterates to nothing and
returns `"Triggers: 0 ()"`; it is the counterexample's shapes — a
non-iterable value such as an integer, or a list holding a non-mapping
element — that raise. -/
theorem get_automation_summary_total :
    (∀ config, summarySafe config = true → ∃ s, get_automation_summary config = .ok s) ∧
    get_automation_summary (.dict [("trigger", .list [.dict []])]) =
      .ok "Triggers: 1 (unknown)" ∧
    get_automation_summary (.dict [("trigger", .dict [])]) = .ok "Triggers: 0 ()" ∧
    get_automation_summary (.dict [("trigger", .str "")]) = .ok "Triggers: 0 ()" := by
  refine ⟨?_, by decide, by decide, by decide⟩
  · intro config h
    cases config with
    | dict es =>
      simp only [summarySafe, Bool.and_eq_true] at h
      obtain ⟨⟨ht, hc⟩, ha⟩ := h
      obtain ⟨l1, h1⟩ := summaryScalarPart_dict "ID: " "id" es
      obtain ⟨l2, h2⟩ := summaryScalarPart_dict "Alias: " "alias" es
      obtain ⟨l3, h3⟩ := summaryScalarPart_dict "Mode: " "mode" es
      obtain ⟨l4, h4⟩ := summaryGroupPart_total "Triggers: " "trigger" "platform" es ht
      obtain ⟨l5, h5⟩ := summaryGroupPart_total "Conditions: " "condition" "condition" es hc
      obtain ⟨l6, h6⟩ := summaryActionsPart_total es ha
      apply exceptOk_exists
      simp [get_automation_summary, h1, h2, h3, h4, h5, h6, Bind.bind, Except.bind,
            Pure.pure, Except.pure]
    | none => simp [summarySafe] at h
    | bool b => simp [summarySafe] at h
    | int n => simp [summarySafe] at h
    | float q => simp [summarySafe] at h
    | str s => simp [summarySafe] at h
    | list xs => simp [summarySafe] at h

/-- Witness for C3's amended theorem at the empty mapping. -/
theorem get_automation_summary_total_witness :
    ∃ s, get_automation_summary (.dict []) = .ok s :=
  get_automation_summary_total.1 (.dict []) rfl

/-! ## C7: the missing-trigger-or-id error appears exactly when both
keys are absent

The other validators can never produce the string
`"Automation must have either 'trigger' or 'id' field"`: every error
they emit either is a different literal or extends one of a fixed set
of literal prefixes, none of which is a prefix of this string. -/

theorem isPrefixB_append (l t : List Char) : keyIn.isPrefixB l (l ++ t) = true := by
  induction l with
  | nil => rfl
  | cons c rest ih => simp [keyIn.isPrefixB, ih]

theorem append_ne_of_not_isPrefixB {L M : String}
    (h : keyIn.isPrefixB L.data M.data = false) (r : String) : L ++ r ≠ M := by
  intro he
  have hd : M.data = L.data ++ r.data := by
    rw [← he, String.data_append]
  rw [hd, isPrefixB_append] at h
  simp at h

theorem M_not_in_platformChecks (i : Nat) (p : PyVal) (es : List (String × PyVal)) :
    "Automation must have either 'trigger' or 'id' field" ∉ platformChecks i p es := by
  unfold platformChecks
  repeat' split
  all_goals
    simp only [List.mem_append, List.mem_singleton, List.not_mem_nil, not_or,
               String.append_assoc, not_false_iff, and_true, true_and]
  all_goals
    first
    | trivial
    | exact fun he => append_ne_of_not_isPrefixB (by decide) _ he.symm
    | refine ⟨?_, ?_⟩ <;>
        first
        | trivial
        | exact fun he => append_ne_of_not_isPrefixB (by decide) _ he.symm

theorem M_not_in_triggerItem (i : Nat) (t : PyVal) (l : List String)
    (h : triggerItem i t = .ok l) :
    "Automation must have either 'trigger' or 'id' field" ∉ l := by
  unfold triggerItem at h
  repeat' split at h
  all_goals
    first
    | (simp only [Except.ok.injEq] at h
       subst h
       try simp only [List.mem_append, List.mem_singleton, List.not_mem_nil, not_or,
                      String.append_assoc, not_false_iff, and_true, true_and]
       first
       | trivial
       | exact fun he => append_ne_of_not_isPrefixB (by decide) _ he.symm
       | exact M_not_in_platformChecks i _ _)
    | simp at h

theorem M_not_in_triggersLoop (ts : List PyVal) :
    ∀ i l, triggersLoop i ts = .ok l →
      "Automation must have either 'trigger' or 'id' field" ∉ l := by
  induction ts with
  | nil =>
    intro i l h
    simp only [triggersLoop, Except.ok.injEq] at h
    subst h
    exact List.not_mem_nil _
  | cons t rest ih =>
    intro i l h
    unfold triggersLoop at h
    repeat' split at h
    all_goals
      first
      | (simp only [Except.ok.injEq] at h
         subst h
         simp only [List.mem_append, not_or]
         exact ⟨M_not_in_triggerItem i t _ (by assumption),
                ih (i + 1) _ (by assumption)⟩)
      | simp at h

theorem M_not_in_validate_triggers (v : PyVal) (l : List String)
    (h : validate_triggers v = .ok l) :
    "Automation must have either 'trigger' or 'id' field" ∉ l := by
  unfold validate_triggers at h
  repeat' split at h
  all_goals
    first
    | exact M_not_in_triggersLoop _ 0 l h
    | (simp only [Except.ok.injEq] at h
       subst h
       simp only [List.mem_singleton, String.append_assoc]
       exact fun he => append_ne_of_not_isPrefixB (by decide) _ he.symm)

theorem M_not_in_conditionChecks (i : Nat) (ct : PyVal) (es : List (String × PyVal)) :
    "Automation must have either 'trigger' or 'id' field" ∉ conditionChecks i ct es := by
  unfold conditionChecks
  repeat' split
  all_goals
    try simp only [List.mem_append, List.mem_singleton, List.not_mem_nil, not_or,
                   String.append_assoc, not_false_iff, and_true, true_and]
  all_goals repeat' apply And.intro
  all_goals
    first
    | trivial
    | exact fun he => append_ne_of_not_isPrefixB (by decide) _ he.symm

theorem M_not_in_conditionItem (i : Nat) (c : PyVal) (l : List String)
    (h : conditionItem i c = .ok l) :
    "Automation must have either 'trigger' or 'id' field" ∉ l := by
  unfold conditionItem at h
  repeat' split at h
  all_goals
    first
    | (simp only [Except.ok.injEq] at h
       subst h
       try simp only [List.mem_append, List.mem_singleton, List.not_mem_nil, not_or,
                      String.append_assoc, not_false_iff, and_true, true_and]
       first
       | trivial
       | exact fun he => append_ne_of_not_isPrefixB (by decide) _ he.symm
       | exact M_not_in_conditionChecks i _ _)
    | simp at h

theorem M_not_in_conditionsLoop (cs : List PyVal) :
    ∀ i l, conditionsLoop i cs = .ok l →
      "Automation must have either 'trigger' or 'id' field" ∉ l := by
  induction cs with
  | nil =>
    intro i l h
    simp only [conditionsLoop, Except.ok.injEq] at h
    subst h
    exact List.not_mem_nil _
  | cons c rest ih =>
    intro i l h
    unfold conditionsLoop at h
    repeat' split at h
    all_goals
      first
      | (simp only [Except.ok.injEq] at h
         subst h
         simp only [List.mem_append, not_or]
         exact ⟨M_not_in_conditionItem i c _ (by assumption),
                ih (i + 1) _ (by assumption)⟩)
      | simp at h

theorem M_not_in_validate_conditions (v : PyVal) (l : List String)
    (h : validate_conditions v = .ok l) :
    "Automation must have either 'trigger' or 'id' field" ∉ l := by
  unfold validate_conditions at h
  repeat' split at h
  all_goals
    first
    | exact M_not_in_conditionsLoop _ 0 l h
    | (simp only [Except.ok.injEq] at h
       subst h
       simp only [List.mem_singleton, String.append_assoc]
       exact fun he => append_ne_of_not_isPrefixB (by decide) _ he.symm)

theorem M_not_in_serviceChecks (i : Nat) (es : List (String × PyVal)) :
    "Automation must have either 'trigger' or 'id' field" ∉ serviceChecks i es := by
  simp only [serviceChecks]
  repeat' split
  all_goals
    try simp only [List.mem_append, List.mem_singleton, List.not_mem_nil, not_or,
                   String.append_assoc, not_false_iff, and_true, true_and]
  all_goals repeat' apply And.intro
  all_goals
    first
    | trivial
    | exact fun he => append_ne_of_not_isPrefixB (by decide) _ he.symm

theorem M_not_in_delayChecks (i : Nat) (es : List (String × PyVal)) :
    "Automation must have either 'trigger' or 'id' field" ∉ delayChecks i es := by
  unfold delayChecks
  repeat' split
  all_goals
    try simp only [List.mem_append, List.mem_singleton, List.not_mem_nil, not_or,
                   String.append_assoc, not_false_iff, and_true, true_and]
  all_goals repeat' apply And.intro
  all_goals
    first
    | trivial
    | exact fun he => append_ne_of_not_isPrefixB (by decide) _ he.symm

theorem M_not_in_processAction (i : Nat) (a : PyVal) :
    "Automation must have either 'trigger' or 'id' field" ∉ processAction i a := by
  cases a
  case dict es =>
    simp only [processAction]
    repeat' split
    all_goals
      first
      | exact M_not_in_serviceChecks i _
      | exact M_not_in_delayChecks i _
      | (simp only [List.mem_map, not_exists, not_and]
         intro e _
         simp only [String.append_assoc]
         exact append_ne_of_not_isPrefixB (by decide) _)
      | (simp only [List.mem_singleton, List.not_mem_nil, String.append_assoc,
                    not_false_iff]
         all_goals
           first
           | trivial
           | exact fun he => append_ne_of_not_isPrefixB (by decide) _ he.symm)
  all_goals
    simp only [processAction, List.mem_singleton, String.append_assoc]
    exact fun he => append_ne_of_not_isPrefixB (by decide) _ he.symm

theorem M_not_in_actionsLoop (as : List PyVal) :
    ∀ i, "Automation must have either 'trigger' or 'id' field" ∉ actionsLoop i as := by
  induction as with
  | nil =>
    intro i
    rw [actionsLoop]
    exact List.not_mem_nil _
  | cons a rest ih =>
    intro i
    rw [actionsLoop]
    simp only [List.mem_append, not_or]
    exact ⟨M_not_in_processAction i a, ih (i + 1)⟩

theorem M_not_in_validate_actions (v : PyVal) :
    "Automation must have either 'trigger' or 'id' field" ∉ validate_actions v := by
  cases v
  case list as =>
    cases as
    case nil =>
      rw [validate_actions]
      decide
    case cons a rest =>
      rw [validate_actions]
      exact M_not_in_actionsLoop (a :: rest) 0
  all_goals
    simp only [validate_actions, List.mem_singleton, String.append_assoc]
    exact fun he => append_ne_of_not_isPrefixB (by decide) _ he.symm

theorem M_not_in_checkIdField (es : List (String × PyVal)) (l : List String)
    (h : checkIdField (.dict es) = .ok l) :
    "Automation must have either 'trigger' or 'id' field" ∉ l := by
  cases hk : hasKey es "id" with
  | false =>
    rw [show checkIdField (.dict es) = .ok [] by
      simp [checkIdField, keyIn, hk, Bind.bind, Except.bind, Pure.pure, Except.pure]] at h
    simp only [Except.ok.injEq] at h
    subst h
    exact List.not_mem_nil _
  | true =>
    obtain ⟨w, hw⟩ := lookup_isSome_of_hasKey hk
    by_cases hs : isStr w = true
    · by_cases hv : strVal w = ""
      · rw [show checkIdField (.dict es) = .ok ["ID cannot be empty"] by
          simp [checkIdField, keyIn, getItem, hk, hw, hs, hv, Bind.bind, Except.bind,
                Pure.pure, Except.pure]] at h
        simp only [Except.ok.injEq] at h
        subst h
        decide
      · rw [show checkIdField (.dict es) = .ok [] by
          simp [checkIdField, keyIn, getItem, hk, hw, hs, hv, Bind.bind, Except.bind,
                Pure.pure, Except.pure]] at h
        simp only [Except.ok.injEq] at h
        subst h
        exact List.not_mem_nil _
    · rw [show checkIdField (.dict es) = .ok ["ID must be a string, got " ++ typeName w] by
        simp [checkIdField, keyIn, getItem, hk, hw, hs, Bind.bind, Except.bind,
              Pure.pure, Except.pure]] at h
      simp only [Except.ok.injEq] at h
      subst h
      simp only [List.mem_singleton, String.append_assoc]
      exact fun he => append_ne_of_not_isPrefixB (by decide) _ he.symm

theorem M_not_in_checkAliasField (es : List (String × PyVal)) (l : List String)
    (h : checkAliasField (.dict es) = .ok l) :
    "Automation must have either 'trigger' or 'id' field" ∉ l := by
  cases hk : hasKey es "alias" with
  | false =>
    rw [show checkAliasField (.dict es) = .ok [] by
      simp [checkAliasField, keyIn, hk, Bind.bind, Except.bind, Pure.pure,
            Except.pure]] at h
    simp only [Except.ok.injEq] at h
    subst h
    exact List.not_mem_nil _
  | true =>
    obtain ⟨w, hw⟩ := lookup_isSome_of_hasKey hk
    by_cases hs : isStr w = true
    · rw [show checkAliasField (.dict es) = .ok [] by
        simp [checkAliasField, keyIn, getItem, hk, hw, hs, Bind.bind, Except.bind,
              Pure.pure, Except.pure]] at h
      simp only [Except.ok.injEq] at h
      subst h
      exact List.not_mem_nil _
    · rw [show checkAliasField (.dict es) =
          .ok ["Alias must be a string, got " ++ typeName w] by
        simp [checkAliasField, keyIn, getItem, hk, hw, hs, Bind.bind, Except.bind,
              Pure.pure, Except.pure]] at h
      simp only [Except.ok.injEq] at h
      subst h
      simp only [List.mem_singleton, String.append_assoc]
      exact fun he => append_ne_of_not_isPrefixB (by decide) _ he.symm

theorem M_not_in_checkModeField (es : List (String × PyVal)) (l : List String)
    (h : checkModeField (.dict es) = .ok l) :
    "Automation must have either 'trigger' or 'id' field" ∉ l := by
  cases hm : lookup es "mode" with
  | none =>
    have hk : hasKey es "mode" = false := by
      rw [← lookup_isSome_eq_hasKey, hm]; rfl
    rw [show checkModeField (.dict es) = .ok [] by
      simp [checkModeField, keyIn, hk, Bind.bind, Except.bind, Pure.pure,
            Except.pure]] at h
    simp only [Except.ok.injEq] at h
    subst h
    exact List.not_mem_nil _
  | some m =>
    have hk : hasKey es "mode" = true := by
      rw [← lookup_isSome_eq_hasKey, hm]; rfl
    cases hio : inStrSet m VALID_MODES with
    | error e =>
      rw [show checkModeField (.dict es) = .error e by
        simp [checkModeField, keyIn, getItem, hk, hm, hio, Bind.bind, Except.bind,
              Pure.pure, Except.pure]] at h
      simp at h
    | ok b =>
      cases b with
      | true =>
        rw [show checkModeField (.dict es) = .ok [] by
          simp [checkModeField, keyIn, getItem, hk, hm, hio, Bind.bind, Except.bind,
                Pure.pure, Except.pure]] at h
        simp only [Except.ok.injEq] at h
        subst h
        exact List.not_mem_nil _
      | false =>
        rw [show checkModeField (.dict es) =
            .ok ["Invalid mode '" ++ pyStr m ++ "'. Must be one of: " ++
                 String.intercalate ", " VALID_MODES] by
          simp [checkModeField, keyIn, getItem, hk, hm, hio, Bind.bind, Except.bind,
                Pure.pure, Except.pure]] at h
        simp only [Except.ok.injEq] at h
        subst h
        simp only [List.mem_singleton, String.append_assoc]
        exact fun he => append_ne_of_not_isPrefixB (by decide) _ he.symm

theorem M_not_in_checkTriggerField (es : List (String × PyVal)) (l : List String)
    (h : checkTriggerField (.dict es) = .ok l) :
    "Automation must have either 'trigger' or 'id' field" ∉ l := by
  cases hm : lookup es "trigger" with
  | none =>
    have hk : hasKey es "trigger" = false := by
      rw [← lookup_isSome_eq_hasKey, hm]; rfl
    rw [show checkTriggerField (.dict es) = .ok [] by
      simp [checkTriggerField, keyIn, hk, Bind.bind, Except.bind, Pure.pure,
            Except.pure]] at h
    simp only [Except.ok.injEq] at h
    subst h
    exact List.not_mem_nil _
  | some t =>
    have hk : hasKey es "trigger" = true := by
      rw [← lookup_isSome_eq_hasKey, hm]; rfl
    rw [show checkTriggerField (.dict es) = validate_triggers t by
      simp [checkTriggerField, keyIn, getItem, hk, hm, Bind.bind, Except.bind,
            Pure.pure, Except.pure]] at h
    exact M_not_in_validate_triggers t l h

theorem M_not_in_checkConditionField (es : List (String × PyVal)) (l : List String)
    (h : checkConditionField (.dict es) = .ok l) :
    "Automation must have either 'trigger' or 'id' field" ∉ l := by
  cases hm : lookup es "condition" with
  | none =>
    have hk : hasKey es "condition" = false := by
      rw [← lookup_isSome_eq_hasKey, hm]; rfl
    rw [show checkConditionField (.dict es) = .ok [] by
      simp [checkConditionField, keyIn, hk, Bind.bind, Except.bind, Pure.pure,
            Except.pure]] at h
    simp only [Except.ok.injEq] at h
    subst h
    exact List.not_mem_nil _
  | some c =>
    have hk : hasKey es "condition" = true := by
      rw [← lookup_isSome_eq_hasKey, hm]; rfl
    rw [show checkConditionField (.dict es) = validate_conditions c by
      simp [checkConditionField, keyIn, getItem, hk, hm, Bind.bind, Except.bind,
            Pure.pure, Except.pure]] at h
    exact M_not_in_validate_conditions c l h

theorem M_not_in_checkActionField (es : List (String × PyVal)) (l : List String)
    (h : checkActionField (.dict es) = .ok l) :
    "Automation must have either 'trigger' or 'id' field" ∉ l := by
  cases hm : lookup es "action" with
  | none =>
    have hk : hasKey es "action" = false := by
      rw [← lookup_isSome_eq_hasKey, hm]; rfl
    rw [show checkActionField (.dict es) = .ok ["Automation must have 'action' field"] by
      simp [checkActionField, keyIn, hk, Bind.bind, Except.bind, Pure.pure,
            Except.pure]] at h
    simp only [Except.ok.injEq] at h
    subst h
    decide
  | some av =>
    have hk : hasKey es "action" = true := by
      rw [← lookup_isSome_eq_hasKey, hm]; rfl
    rw [show checkActionField (.dict es) = .ok (validate_actions av) by
      simp [checkActionField, keyIn, getItem, hk, hm, Bind.bind, Except.bind,
            Pure.pure, Except.pure, Functor.map, Except.map]] at h
    simp only [Except.ok.injEq] at h
    subst h
    exact M_not_in_validate_actions av

theorem vac_decompose (config : PyVal) (b : Bool) (errs : List String)
    (h : validate_automation_config config = .ok (b, errs)) :
    ∃ l1 l2 l3 l4 l5 l6 l7,
      checkRequiredFields config = .ok l1 ∧ checkIdField config = .ok l2 ∧
      checkAliasField config = .ok l3 ∧ checkModeField config = .ok l4 ∧
      checkTriggerField config = .ok l5 ∧ checkConditionField config = .ok l6 ∧
      checkActionField config = .ok l7 ∧
      errs = l1 ++ l2 ++ l3 ++ l4 ++ l5 ++ l6 ++ l7 := by
  unfold validate_automation_config at h
  simp only [Bind.bind, Except.bind, Pure.pure, Except.pure] at h
  cases h1 : checkRequiredFields config with
  | error e => rw [h1] at h; simp at h
  | ok l1 =>
  rw [h1] at h
  simp only [] at h
  cases h2 : checkIdField config with
  | error e => rw [h2] at h; simp at h
  | ok l2 =>
  rw [h2] at h
  simp only [] at h
  cases h3 : checkAliasField config with
  | error e => rw [h3] at h; simp at h
  | ok l3 =>
  rw [h3] at h
  simp only [] at h
  cases h4 : checkModeField config with
  | error e => rw [h4] at h; simp at h
  | ok l4 =>
  rw [h4] at h
  simp only [] at h
  cases h5 : checkTriggerField config with
  | error e => rw [h5] at h; simp at h
  | ok l5 =>
  rw [h5] at h
  simp only [] at h
  cases h6 : checkConditionField config with
  | error e => rw [h6] at h; simp at h
  | ok l6 =>
  rw [h6] at h
  simp only [] at h
  cases h7 : checkActionField config with
  | error e => rw [h7] at h; simp at h
  | ok l7 =>
  rw [h7] at h
  simp only [Except.ok.injEq, Prod.mk.injEq] at h
  exact ⟨l1, l2, l3, l4, l5, l6, l7, rfl, rfl, rfl, rfl, rfl, rfl, rfl, h.2.symm⟩

/-- C7: a mapping with neither `trigger` nor `id` gets the
missing-trigger-or-id error while validation still checks the remaining
fields (a missing `action` is still reported alongside it); adding
either key to the same document makes that specific error impossible. -/
theorem missing_trigger_or_id_error :
    (∀ es b errs, hasKey es "trigger" = false → hasKey es "id" = false →
      validate_automation_config (.dict es) = .ok (b, errs) →
      "Automation must have either 'trigger' or 'id' field" ∈ errs ∧
      (hasKey es "action" = false → "Automation must have 'action' field" ∈ errs)) ∧
    (∀ es v b errs,
      validate_automation_config (.dict (("trigger", v) :: es)) = .ok (b, errs) →
      "Automation must have either 'trigger' or 'id' field" ∉ errs) ∧
    (∀ es v b errs,
      validate_automation_config (.dict (("id", v) :: es)) = .ok (b, errs) →
      "Automation must have either 'trigger' or 'id' field" ∉ errs) := by
  refine ⟨fun es b errs ht hi h => ?_, fun es v b errs h => ?_, fun es v b errs h => ?_⟩
  · obtain ⟨l1, l2, l3, l4, l5, l6, l7, h1, h2, h3, h4, h5, h6, h7, he⟩ :=
      vac_decompose _ b errs h
    rw [show checkRequiredFields (.dict es) =
        .ok ["Automation must have either 'trigger' or 'id' field"] by
      simp [checkRequiredFields, keyIn, ht, hi, Bind.bind, Except.bind, Pure.pure,
            Except.pure]] at h1
    simp only [Except.ok.injEq] at h1
    subst h1
    constructor
    · rw [he]
      simp
    · intro ha
      rw [show checkActionField (.dict es) = .ok ["Automation must have 'action' field"] by
        simp [checkActionField, keyIn, ha, Bind.bind, Except.bind, Pure.pure,
              Except.pure]] at h7
      simp only [Except.ok.injEq] at h7
      subst h7
      rw [he]
      simp
  · obtain ⟨l1, l2, l3, l4, l5, l6, l7, h1, h2, h3, h4, h5, h6, h7, he⟩ :=
      vac_decompose _ b errs h
    have htk : hasKey (("trigger", v) :: es) "trigger" = true := by simp [hasKey]
    rw [show checkRequiredFields (.dict (("trigger", v) :: es)) = .ok [] by
      simp [checkRequiredFields, keyIn, htk, Bind.bind, Except.bind, Pure.pure,
            Except.pure]] at h1
    simp only [Except.ok.injEq] at h1
    subst h1
    rw [he]
    intro hm
    simp only [List.nil_append, List.mem_append] at hm
    rcases hm with ((((hm | hm) | hm) | hm) | hm) | hm
    exacts [M_not_in_checkIdField _ _ h2 hm, M_not_in_checkAliasField _ _ h3 hm,
            M_not_in_checkModeField _ _ h4 hm, M_not_in_checkTriggerField _ _ h5 hm,
            M_not_in_checkConditionField _ _ h6 hm, M_not_in_checkActionField _ _ h7 hm]
  · obtain ⟨l1, l2, l3, l4, l5, l6, l7, h1, h2, h3, h4, h5, h6, h7, he⟩ :=
      vac_decompose _ b errs h
    have hik : hasKey (("id", v) :: es) "id" = true := by simp [hasKey]
    rw [show checkRequiredFields (.dict (("id", v) :: es)) = .ok [] by
      simp [checkRequiredFields, keyIn, hik, Bind.bind, Except.bind, Pure.pure,
            Except.pure]] at h1
    simp only [Except.ok.injEq] at h1
    subst h1
    rw [he]
    intro hm
    simp only [List.nil_append, List.mem_append] at hm
    rcases hm with ((((hm | hm) | hm) | hm) | hm) | hm
    exacts [M_not_in_checkIdField _ _ h2 hm, M_not_in_checkAliasField _ _ h3 hm,
            M_not_in_checkModeField _ _ h4 hm, M_not_in_checkTriggerField _ _ h5 hm,
            M_not_in_checkConditionField _ _ h6 hm, M_not_in_checkActionField _ _ h7 hm]

/-- Witness for C7: the empty document gets the missing-trigger-or-id
error next to the missing-action error; adding a `trigger` key removes
it. -/
theorem missing_trigger_or_id_error_witness :
    "Automation must have either 'trigger' or 'id' field" ∈
      ["Automation must have either 'trigger' or 'id' field",
       "Automation must have 'action' field"] ∧
    "Automation must have either 'trigger' or 'id' field" ∉
      ["Automation must have 'action' field"] :=
  ⟨(missing_trigger_or_id_error.1 [] false
      ["Automation must have either 'trigger' or 'id' field",
       "Automation must have 'action' field"] rfl rfl (by decide)).1,
   missing_trigger_or_id_error.2.1 [] (.list []) false
      ["Automation must have 'action' field"] (by decide)⟩
